import Mathlib

/-!
Verification development for the videomind-ai job-processing pipeline.

The definitions below are a shallow embedding of the Python source:

* `src/models/video.py` — job record and status enumeration,
* `src/api/jobs.py` — retry, bulk retry, stuck-job detection,
* `src/api/process.py` — submission deduplication, idempotent directory
  upsert, background pipeline completion,
* `src/services/transcription_service.py` — Whisper pre-checks and the
  AI-enrichment stage,
* `src/services/youtube_service.py` — download validation and the
  whisper-first strategy chain,
* `src/utils/directory_mapper.py` — pure mapping helpers for publishing.

Timestamps are modelled as integers (seconds); database tables as lists of
records; calls to external services as explicit outcome parameters.  The
persisted `retry_count` column is the nullable *string* column the model
declares (`Column(String, default="0")`), with Python's `or`/`+` semantics
and SQLite's TEXT-affinity comparison semantics modelled explicitly; the
columns `updated_at` and `audio_file_path`, which `api/jobs.py` names but
`models/video.py` never declares, are modelled as the attribute errors and
transient writes they produce at run time.
-/

namespace VideoMind

/-- Processing status enumeration from `models/video.py` (`ProcessingStatus`). -/
inductive ProcessingStatus
  | pending
  | downloading
  | transcribing
  | enhancing
  | completed
  | failed
deriving DecidableEq, Repr

/-- Processing tier enumeration from `models/video.py` (`ProcessingTier`). -/
inductive ProcessingTier
  | basic
  | detailed
  | bulk
deriving DecidableEq, Repr

/-- One question/answer pair of the enrichment payload. -/
structure QAPair where
  question : String
  answer : String
deriving DecidableEq, Repr

/-- The structured fields the generative service's JSON response may carry
(each key optional, mirroring `enhanced_data.get(...)`). -/
structure EnhancedPayload where
  summary : Option String
  key_points : Option (List String)
  qa_pairs : Option (List QAPair)
  topics : Option (List String)
deriving DecidableEq, Repr

/-- The `ai_enhanced` result dict stored on a job
(`transcription_service.enhance_with_ai`). -/
structure EnhancedData where
  success : Bool
  tier : ProcessingTier
  summary : String
  key_points : List String
  qa_pairs : List QAPair
  topics : List String
  word_count : Nat
  processing_model : String
  error : Option String
deriving DecidableEq, Repr

/-- The `transcript` result dict stored on a job. -/
structure TranscriptData where
  method : String
  full_text : String
  word_count : Nat
deriving DecidableEq, Repr

/-- Video metadata relevant to publishing (`video_metadata` dict). -/
structure VideoMeta where
  title : Option String
  uploader : Option String
deriving DecidableEq, Repr

/-- The `video_jobs` record (`models/video.py`, class `VideoJob`), restricted
to the columns the pipeline logic reads or writes (the billing columns
`email`, `cost`, `payment_intent_id` and the `download_links` blob carry no
logic).  The model declares *no* `updated_at` and no `audio_file_path`
column — the recovery endpoints in `api/jobs.py` that name them are
modelled accordingly below — and `retry_count` is a nullable *string*
column, `Column(String, default="0")`. -/
structure VideoJob where
  id : String
  youtube_url : String
  status : ProcessingStatus
  tier : ProcessingTier
  created_at : Int
  completed_at : Option Int
  video_metadata : Option VideoMeta
  transcript : Option TranscriptData
  ai_enhanced : Option EnhancedData
  error_message : Option String
  retry_count : Option String
deriving DecidableEq, Repr

/-- The column names `models/video.py` declares on `video_jobs`.  Neither
`updated_at` nor `audio_file_path` is among them. -/
def videojob_column_names : List String :=
  ["id", "youtube_url", "status", "email", "tier", "created_at", "completed_at",
   "video_metadata", "transcript", "ai_enhanced", "download_links", "cost",
   "payment_intent_id", "error_message", "retry_count"]

/-- The Python exceptions the recovery endpoints can raise; an uncaught one
makes the endpoint answer 500 without returning its response model. -/
inductive PyError
  | attributeError (name : String)
  | typeError (msg : String)
  | importError (name : String)
deriving DecidableEq, Repr

/-- Python `(job.retry_count or 0) + 1` on the String column's value:
`None` and `""` are falsy, so `0 + 1` yields the integer 1; any other
stored string reaches `str + int` and raises `TypeError`. -/
def py_increment_retry_count : Option String → Except PyError Nat
  | none => .ok 1
  | some s =>
      if s = "" then .ok 1
      else .error (.typeError "can only concatenate str (not \"int\") to str")

/-- The module-level names `api/process.py` defines.  The background task
the recovery endpoints import, `process_video_job_background`, is not one
of them (the module defines `process_video_background`). -/
def api_process_module_defs : List String :=
  ["router", "BatchVideoJobCreate", "ArticleJobCreate", "BatchArticleJobCreate",
   "upsert_directory_entry_from_job", "submit_video_for_processing",
   "submit_batch_videos_for_processing", "jobs_health", "retry_failed_jobs",
   "get_job_status", "download_results", "process_video_background",
   "upsert_directory_entry_from_article", "submit_article_for_processing",
   "submit_articles_batch", "process_article_background",
   "process_articles_batch_background"]

/-- `from api.process import name`: succeeds only for a name the module
defines, raising `ImportError` otherwise. -/
def import_from_api_process (name : String) : Except PyError Unit :=
  if name ∈ api_process_module_defs then .ok () else .error (.importError name)

/-! ## Stuck-job detection (`api/jobs.py`, `get_stuck_jobs` / `cleanup_stuck_jobs`)

The filter written in the source is
`(status = downloading AND updated_at < now - 30min) OR
 (status IN (transcribing, enhancing) AND updated_at < now - 15min)`,
but it names `VideoJob.updated_at`, a column the model does not declare:
in Python, resolving that class attribute raises `AttributeError` while the
query is being built, before any row is examined.  Both stuck endpoints —
`GET /jobs/stuck` and `POST /jobs/cleanup-stuck` — hit that access. -/

/-- The predicate the stuck filter clause denotes on an `updated_at`
timestamp, were one supplied; `now` and `updated_at` in seconds.  The
program never evaluates it (see `get_stuck_jobs`). -/
def stuck_filter_clause (status : ProcessingStatus) (updated_at now : Int) : Bool :=
  (decide (status = .downloading) && decide (updated_at < now - 30 * 60))
    || ((decide (status = .transcribing) || decide (status = .enhancing))
          && decide (updated_at < now - 15 * 60))

/-- Resolving a timestamp attribute on the `VideoJob` class, as the query
filter must: only `created_at` is a (non-null) datetime column. -/
def videojob_datetime_attr : String → Option (VideoJob → Int)
  | "created_at" => some (fun j => j.created_at)
  | _ => none

/-- `GET /jobs/stuck`: building the filter resolves `VideoJob.updated_at`;
with no such column the endpoint raises instead of flagging anything. -/
def get_stuck_jobs (jobs : List VideoJob) (now : Int) :
    Except PyError (List VideoJob) :=
  match videojob_datetime_attr "updated_at" with
  | none => .error (.attributeError "updated_at")
  | some upd => .ok (jobs.filter (fun j => stuck_filter_clause j.status (upd j) now))

/-! ## Single-job retry (`api/jobs.py`, `retry_job`)

The endpoint guards on a retryable status, then runs
`job.retry_count = (job.retry_count or 0) + 1`.  On the String column this
raises `TypeError` for every stored non-empty value (the default is `"0"`),
so the endpoint answers 500 with no mutation.  In the only succeeding
corner (`retry_count` NULL or `""`) the job is reset and committed — the
stale-data guard compares `job.status` *after* the `status = pending`
assignment and never fires, and the `updated_at`/`audio_file_path` writes
touch transient attributes with no column behind them — and the subsequent
`from api.process import process_video_job_background` raises
`ImportError`, so the endpoint still answers 500 after the commit. -/

/-- Statuses accepted by the retry endpoint. -/
def retryable_statuses : List ProcessingStatus :=
  [.failed, .downloading, .transcribing, .enhancing]

/-- One element of the bulk-operation result list (`RetryResult`); also the
response model of the single-job retry. -/
structure RetryResult where
  job_id : String
  success : Bool
  message : String
  new_status : ProcessingStatus
deriving DecidableEq, Repr

/-- How a call of the retry endpoint ends: a 400 on the status guard, an
uncaught exception (500), or the success response. -/
inductive RetryJobOutcome
  | badStatus (s : ProcessingStatus)
  | raised (e : PyError)
  | ok (r : RetryResult)
deriving DecidableEq, Repr

/-- `POST /jobs/{id}/retry`: the persisted job together with the
endpoint's outcome. -/
def retry_job (job : VideoJob) : VideoJob × RetryJobOutcome :=
  if job.status ∈ retryable_statuses then
    match py_increment_retry_count job.retry_count with
    | .error e => (job, .raised e)
    | .ok n =>
        let j1 : VideoJob :=
          { job with
            retry_count := some (toString n)
            status := .pending
            error_message := none }
        let j2 : VideoJob :=
          if j1.status = .failed then
            { j1 with transcript := none, ai_enhanced := none }
          else j1
        match import_from_api_process "process_video_job_background" with
        | .error e => (j2, .raised e)
        | .ok _ => (j2, .ok
            { job_id := job.id
              success := true
              message := "Job queued for retry (attempt #" ++ toString n ++ ")"
              new_status := .pending })
  else
    (job, .badStatus job.status)

/-! ## Bulk retry (`api/jobs.py`, `retry_all_failed_jobs`)

Selection is the SQL filter
`status = failed AND (retry_count IS NULL OR retry_count < max_retries)`.
On the default SQLite backend the String column has TEXT affinity, so the
comparison applies TEXT affinity to the integer cap and compares the
stored string with the cap's decimal rendering *lexicographically*
(`"10" < "3"` is true, `"999" < "1000000"` is false).  `IS NULL` selects a
NULL value outright.

Each selected job is processed in its own `try/except`: the body first
runs the String-column increment (raising `TypeError` for every stored
non-empty value), and in the NULL/`""` corner resets and commits the job
and then imports `process_video_job_background`, a name `api.process`
does not define (`ImportError`).  Either exception is caught, recorded as
that job's per-item failure result, and the loop continues. -/

/-- Result of a bulk retry operation (`BulkRetryResult`). -/
structure BulkRetryResult where
  total_attempted : Nat
  successful_retries : Nat
  failed_retries : Nat
  details : List RetryResult
deriving DecidableEq, Repr

/-- Python `str(e)` for the exceptions the loop body can raise, without
the interpreter's quoting and path detail. -/
def py_error_str : PyError → String
  | .attributeError name => "type object VideoJob has no attribute " ++ name
  | .typeError msg => msg
  | .importError name => "cannot import name " ++ name ++ " from api.process"

/-- SQLite's BINARY collation on character lists: memcmp order, which on
UTF-8 agrees with codepoint-lexicographic order. -/
def listLexLt : List Char → List Char → Bool
  | [], [] => false
  | [], _ :: _ => true
  | _ :: _, [] => false
  | a :: as, b :: bs =>
      if a.toNat < b.toNat then true
      else if b.toNat < a.toNat then false
      else listLexLt as bs

/-- The `<` SQLite evaluates between two TEXT values. -/
def sql_text_lt (a b : String) : Bool :=
  listLexLt a.data b.data

/-- The SQL eligibility filter of `retry_all_failed_jobs`: NULL is
selected; a stored string is compared lexicographically with the decimal
rendering of the cap (TEXT affinity). -/
def bulk_retry_eligible (max_retries : Nat) (j : VideoJob) : Bool :=
  decide (j.status = .failed)
    && (j.retry_count.isNone || sql_text_lt (j.retry_count.getD "") (toString max_retries))

/-- One iteration of the `for job in failed_jobs` loop: the persisted job
and the per-item result.  The increment raises before any column write;
in the NULL/`""` corner the reset is committed (the `updated_at` and
`audio_file_path` writes touch transient attributes) and the import of
the background task then raises, so the except-branch records a failure
with `new_status` read from the already-reset job. -/
def bulk_retry_item (j : VideoJob) : VideoJob × RetryResult :=
  match py_increment_retry_count j.retry_count with
  | .error e =>
      (j, { job_id := j.id
            success := false
            message := "Failed to queue retry: " ++ py_error_str e
            new_status := j.status })
  | .ok n =>
      let j' : VideoJob :=
        { j with
          retry_count := some (toString n)
          status := .pending
          error_message := none
          transcript := none
          ai_enhanced := none }
      match import_from_api_process "process_video_job_background" with
      | .error e =>
          (j', { job_id := j.id
                 success := false
                 message := "Failed to queue retry: " ++ py_error_str e
                 new_status := j'.status })
      | .ok _ =>
          (j', { job_id := j.id
                 success := true
                 message := "Queued for retry (attempt #" ++ toString n ++ ")"
                 new_status := j'.status })

/-- The loop over the selected jobs: every iteration runs, exceptions in
one iteration notwithstanding. -/
def bulk_retry_loop : List VideoJob → List VideoJob × List RetryResult
  | [] => ([], [])
  | j :: rest =>
      ((bulk_retry_item j).1 :: (bulk_retry_loop rest).1,
       (bulk_retry_item j).2 :: (bulk_retry_loop rest).2)

/-- `POST /jobs/retry-failed`: select the eligible jobs, run the loop, and
assemble the response counters; also the persisted states of the selected
jobs. -/
def retry_all_failed_jobs (db : List VideoJob) (max_retries : Nat) :
    BulkRetryResult × List VideoJob :=
  let failed_jobs := db.filter (bulk_retry_eligible max_retries)
  let results := (bulk_retry_loop failed_jobs).2
  ({ total_attempted := failed_jobs.length
     successful_retries := (results.filter (fun r => r.success)).length
     failed_retries := failed_jobs.length - (results.filter (fun r => r.success)).length
     details := results },
   (bulk_retry_loop failed_jobs).1)

/-! ## String helpers

Python's `in` substring test and the `\b`-bounded regex search used by
`utils/directory_mapper._contains_any` are modelled over `List Char`. -/

/-- Does `t` start the list `s`?  On success, return the remainder of `s`. -/
def matchRest : List Char → List Char → Option (List Char)
  | [], s => some s
  | _, [] => none
  | c :: cs, d :: ds => if c == d then matchRest cs ds else none

/-- Python `pat in text` on character lists. -/
def listContainsSub (pat : List Char) : List Char → Bool
  | [] => (matchRest pat []).isSome
  | s@(_ :: rest) => (matchRest pat s).isSome || listContainsSub pat rest

/-- Python `pat in text` on strings. -/
def strContainsSub (text pat : String) : Bool :=
  listContainsSub pat.data text.data

/-- Python `s.endswith(suffix)`: the reversed suffix starts the reversed
text. -/
def strEndsWith (s suffix : String) : Bool :=
  (matchRest suffix.data.reverse s.data.reverse).isSome

/-- The regex word-character class `\w` (ASCII reading). -/
def isWordChar (c : Char) : Bool :=
  c.isAlphanum || c == '_'

/-- A `\b` boundary between two optional neighbouring characters: exactly
one side is a word character (a missing side counts as non-word). -/
def wordBoundary (a b : Option Char) : Bool :=
  (a.elim false isWordChar) != (b.elim false isWordChar)

/-- Does `term` occur in the text with a `\b` boundary on both sides?
`prev` is the character just before the current position. -/
def listContainsWord (term : List Char) (prev : Option Char) :
    List Char → Bool
  | [] =>
      (match matchRest term [] with
       | some rest => wordBoundary prev term.head? && wordBoundary term.getLast? rest.head?
       | none => false)
  | s@(c :: rest) =>
      (match matchRest term s with
       | some r => wordBoundary prev term.head? && wordBoundary term.getLast? r.head?
       | none => false)
      || listContainsWord term (some c) rest

/-- `re.search(r'\b' + term + r'\b', text)` as a Boolean. -/
def strContainsWord (text term : String) : Bool :=
  listContainsWord term.data none text.data

/-! ## Publishing helpers (`utils/directory_mapper.py`) -/

/-- `_contains_any(text, terms)`: word-boundary search for terms of at most
three characters, plain substring search for longer ones.  The text is
lowercased by the caller-side expression `(text or "").lower()`. -/
def contains_any (text : String) (terms : List String) : Bool :=
  let t := text.toLower
  terms.any (fun term =>
    if term.length ≤ 3 then strContainsWord t term else strContainsSub t term)

/-- `infer_category(title, summary, topics)`. -/
def infer_category (title summary : String) (topics : List String) : String :=
  let corpus := (title ++ " " ++ summary ++ " " ++ " ".intercalate topics).toLower
  if contains_any corpus ["setup", "install", "onboard", "getting started", "configuration"] then
    "Setup & Onboarding"
  else if contains_any corpus ["debug", "error", "fix", "troubleshoot", "problem", "issue"] then
    "Debugging & Fixes"
  else if contains_any corpus ["prompt", "template", "system prompt", "prompt engineering"] then
    "Prompts & Templates"
  else if contains_any corpus ["notion", "api", "mcp", "integration", "tool", "webhook",
      "automation", "workflow", "ai agent", "openclaw"] then
    "Tooling & Integrations"
  else if contains_any corpus ["money", "revenue", "sales", "business", "make $", "profit",
      "roi", "entrepreneur"] then
    "Business Use Cases"
  else if contains_any corpus ["automation", "workflow", "agent", "ai",
      "artificial intelligence", "machine learning"] then
    "Automation Workflows"
  else if contains_any corpus ["review", "opinion", "thoughts on", "reaction", "commentary",
      "analysis"] then
    "Reviews & Opinions"
  else if contains_any corpus ["news", "update", "announcement", "release", "breaking"] then
    "News & Updates"
  else if contains_any corpus ["tutorial", "how to", "learn", "course", "education",
      "explanation", "guide"] then
    "Educational"
  else if contains_any corpus ["funny", "entertainment", "meme", "comedy", "fun", "gaming",
      "music", "movie", "cat", "dog", "compilation", "viral", "hilarious"] then
    "Entertainment"
  else
    "General Content"

/-- `infer_difficulty(transcript_word_count)`. -/
def infer_difficulty (transcript_word_count : Nat) : String :=
  if transcript_word_count ≥ 3500 then "Advanced"
  else if transcript_word_count ≥ 1600 then "Intermediate"
  else "Beginner"

/-- `make_5_bullets(summary, key_points)`: keep the non-empty key points,
cap at five, pad with the summary when short, and render with the source's
(mojibake) bullet prefix. -/
def make_5_bullets (summary : String) (key_points : List String) : String :=
  let points := (key_points.filter (fun p => p != "")).take 5
  let points := if points.length < 5 && summary != "" then points ++ [summary] else points
  let points := points.take 5
  "\n".intercalate (points.map (fun p => "â€¢ " ++ p))

/-- `infer_signal_score(ai_enhanced, transcript)`: a base of 65 plus bounded
bonuses, clamped into `[1, 100]`. -/
def infer_signal_score (ai_enhanced : Option EnhancedData)
    (transcript : Option TranscriptData) : Nat :=
  let qa_pairs := match ai_enhanced with
    | none => []
    | some e => e.qa_pairs
  let topics := match ai_enhanced with
    | none => []
    | some e => e.topics
  let wc := match transcript with
    | none => 0
    | some t => t.word_count
  let score := 65 + min (qa_pairs.length * 2) 12 + min (topics.length * 2) 10
    + (if wc > 1200 then 8 else 0) + (if wc > 2500 then 5 else 0)
  max 1 (min 100 score)

/-- `build_teaches_agent_to(category)`. -/
def build_teaches_agent_to (category : String) : String :=
  "Execute " ++ category.toLower ++ " workflows with reliable, repeatable steps."

/-- `build_prompt_template(title, category, tools)` (the source's `"\\n"`
separators are literal backslash-n sequences). -/
def build_prompt_template (title category tools : String) : String :=
  "You are implementing lessons from: " ++ title ++ ".\\n"
    ++ "Category: " ++ category ++ ".\\n"
    ++ "Tools: " ++ (if tools == "" then "OpenClaw, VideoMind AI" else tools) ++ ".\\n"
    ++ "Goal: produce an actionable plan with commands, checkpoints, and output format.\\n"
    ++ "Return: (1) step-by-step plan, (2) copy/paste commands, (3) validation checklist."

/-- `build_execution_checklist(category)`. -/
def build_execution_checklist (category : String) : String :=
  "\\n".intercalate
    [ "[ ] Confirm objective for " ++ category
    , "[ ] Verify required tools/auth are available"
    , "[ ] Run the workflow step-by-step"
    , "[ ] Capture output artifacts (links/files/results)"
    , "[ ] Validate results against success criteria" ]

/-- `build_agent_training_script(title, summary_bullets, checklist)`. -/
def build_agent_training_script (title summary_bullets checklist : String) : String :=
  "TRAINING SCRIPT: " ++ title ++ "\\n\\n"
    ++ "What to learn:\\n"
    ++ (if summary_bullets == "" then "- Review source video and transcript" else summary_bullets)
    ++ "\\n\\n"
    ++ "How to execute:\\n" ++ checklist ++ "\\n\\n"
    ++ "When done, report: objective, steps executed, outcome, blockers, and next action."

/-! ## Directory entries and the idempotent publish
(`models/directory.py`, `api/process.py::upsert_directory_entry_from_job`) -/

/-- `ContentType` from `models/directory.py`. -/
inductive ContentType
  | video
  | article
deriving DecidableEq, Repr

/-- The `directory_entries` record, restricted to the columns the publish
path writes. -/
structure DirectoryEntryRec where
  id : String
  source_job_id : String
  title : String
  video_url : Option String
  source_url : String
  content_type : ContentType
  creator_name : String
  category_primary : String
  difficulty : String
  tools_mentioned : String
  summary_5_bullets : String
  best_for : String
  signal_score : Nat
  processing_status : String
  teaches_agent_to : String
  prompt_template : String
  execution_checklist : String
  agent_training_script : String
  created_at : Int
  updated_at : Int
deriving DecidableEq, Repr

/-- Python `x or default` for an optional string: `None` and `""` both fall
through to the default. -/
def pyOrStr (x : Option String) (default : String) : String :=
  match x with
  | none => default
  | some s => if s == "" then default else s

/-- The `payload` dict assembled by `upsert_directory_entry_from_job`. -/
structure DirectoryPayload where
  source_job_id : String
  title : String
  video_url : String
  source_url : String
  content_type : ContentType
  creator_name : String
  category_primary : String
  difficulty : String
  tools_mentioned : String
  summary_5_bullets : String
  best_for : String
  signal_score : Nat
  processing_status : String
  teaches_agent_to : String
  prompt_template : String
  execution_checklist : String
  agent_training_script : String
  created_at : Int
  updated_at : Int
deriving DecidableEq, Repr

/-- Compute the payload of a directory entry from a completed job, exactly
as `upsert_directory_entry_from_job` does before it touches the table;
`now` is the single `datetime.utcnow()` the source takes. -/
def directory_payload_from_job (job : VideoJob) (now : Int) : DirectoryPayload :=
  let title := pyOrStr (job.video_metadata.bind (fun m => m.title))
    ("Training Video (" ++ job.id.take 8 ++ ")")
  let creator := pyOrStr (job.video_metadata.bind (fun m => m.uploader)) "Unknown Creator"
  let summary := pyOrStr (job.ai_enhanced.map (fun e => e.summary))
    "Transcript processed and ready for training use."
  let key_points := (job.ai_enhanced.map (fun e => e.key_points)).getD []
  let topics := (job.ai_enhanced.map (fun e => e.topics)).getD []
  let category := infer_category title summary topics
  let difficulty := infer_difficulty ((job.transcript.map (fun t => t.word_count)).getD 0)
  let bullets := make_5_bullets summary key_points
  let tools := if topics.isEmpty then "OpenClaw, VideoMind AI"
    else ", ".intercalate (topics.take 6)
  let score := infer_signal_score job.ai_enhanced job.transcript
  { source_job_id := job.id
    title := title
    video_url := job.youtube_url
    source_url := job.youtube_url
    content_type := .video
    creator_name := creator
    category_primary := category
    difficulty := difficulty
    tools_mentioned := tools
    summary_5_bullets := bullets
    best_for := "People learning " ++ category.toLower ++ " workflows"
    signal_score := score
    processing_status := "processed"
    teaches_agent_to := build_teaches_agent_to category
    prompt_template := build_prompt_template title category tools
    execution_checklist := build_execution_checklist category
    agent_training_script := build_agent_training_script title bullets
      (build_execution_checklist category)
    created_at := now
    updated_at := now }

/-- The update branch: every payload key except `created_at` is written onto
the existing row, and `updated_at` is stamped. -/
def apply_payload (p : DirectoryPayload) (e : DirectoryEntryRec) : DirectoryEntryRec :=
  { e with
    source_job_id := p.source_job_id
    title := p.title
    video_url := some p.video_url
    source_url := p.source_url
    content_type := p.content_type
    creator_name := p.creator_name
    category_primary := p.category_primary
    difficulty := p.difficulty
    tools_mentioned := p.tools_mentioned
    summary_5_bullets := p.summary_5_bullets
    best_for := p.best_for
    signal_score := p.signal_score
    processing_status := p.processing_status
    teaches_agent_to := p.teaches_agent_to
    prompt_template := p.prompt_template
    execution_checklist := p.execution_checklist
    agent_training_script := p.agent_training_script
    updated_at := p.updated_at }

/-- The insert branch (`db.add(DirectoryEntry(**payload))`); `newId` stands
for the generated primary key. -/
def new_entry_from_payload (newId : String) (p : DirectoryPayload) : DirectoryEntryRec :=
  { id := newId
    source_job_id := p.source_job_id
    title := p.title
    video_url := some p.video_url
    source_url := p.source_url
    content_type := p.content_type
    creator_name := p.creator_name
    category_primary := p.category_primary
    difficulty := p.difficulty
    tools_mentioned := p.tools_mentioned
    summary_5_bullets := p.summary_5_bullets
    best_for := p.best_for
    signal_score := p.signal_score
    processing_status := p.processing_status
    teaches_agent_to := p.teaches_agent_to
    prompt_template := p.prompt_template
    execution_checklist := p.execution_checklist
    agent_training_script := p.agent_training_script
    created_at := p.created_at
    updated_at := p.updated_at }

/-- Mutating the first row a query's `first()` returned, as a list update. -/
def update_first (p : α → Bool) (f : α → α) : List α → List α
  | [] => []
  | x :: xs => if p x then f x :: xs else x :: update_first p f xs

/-- The row filter `DirectoryEntry.video_url == job.youtube_url`. -/
def entry_has_video_url (url : String) (e : DirectoryEntryRec) : Bool :=
  decide (e.video_url = some url)

/-- `upsert_directory_entry_from_job(db, job)`: update the existing entry
in place when one matches the job's source URL, insert a fresh one
otherwise. -/
def upsert_directory_entry_from_job (entries : List DirectoryEntryRec)
    (job : VideoJob) (now : Int) (newId : String) : List DirectoryEntryRec :=
  let payload := directory_payload_from_job job now
  match entries.find? (entry_has_video_url job.youtube_url) with
  | some _ => update_first (entry_has_video_url job.youtube_url) (apply_payload payload) entries
  | none => entries ++ [new_entry_from_payload newId payload]

/-! ## Submission deduplication
(`api/process.py::submit_video_for_processing`, lines 140–201)

The handler looks up the *first* stored job whose `youtube_url` equals the
submitted URL; when its status is in the active-or-completed set it returns
that job's id.  Otherwise it falls through to the directory check
(`video_url == url OR source_url == url`), and only then creates a fresh
job — after `get_video_info` succeeded, which is modelled by the optional
metadata argument. -/

/-- Outcome of a submission, as seen by the caller. -/
inductive SubmitOutcome
  | existingJob (job_id : String)
  | existingEntry (entry_id : String)
  | rejected
  | created (job_id : String)
deriving DecidableEq, Repr

/-- The status list of the first deduplication check. -/
def active_or_completed_statuses : List ProcessingStatus :=
  [.pending, .downloading, .transcribing, .enhancing, .completed]

/-- The fresh job record built by the handler; `retry_count` takes the
column default `"0"` on insert. -/
def new_job_record (newId url : String) (tier : ProcessingTier) (info : VideoMeta)
    (now : Int) : VideoJob :=
  { id := newId
    youtube_url := url
    status := .pending
    tier := tier
    retry_count := some "0"
    error_message := none
    video_metadata := some info
    transcript := none
    ai_enhanced := none
    created_at := now
    completed_at := none }

/-- The directory-level check and job creation, reached when no blocking
job was found. -/
def submit_entry_phase (jobs : List VideoJob) (entries : List DirectoryEntryRec)
    (url : String) (tier : ProcessingTier) (info : Option VideoMeta)
    (newId : String) (now : Int) : SubmitOutcome × List VideoJob :=
  match entries.find? (fun e =>
      decide (e.video_url = some url) || decide (e.source_url = url)) with
  | some e => (.existingEntry e.id, jobs)
  | none =>
      match info with
      | none => (.rejected, jobs)
      | some i => (.created newId, jobs ++ [new_job_record newId url tier i now])

/-- `POST /process`: the two-level deduplication followed by job creation. -/
def submit_video_for_processing (jobs : List VideoJob)
    (entries : List DirectoryEntryRec) (url : String) (tier : ProcessingTier)
    (info : Option VideoMeta) (newId : String) (now : Int) :
    SubmitOutcome × List VideoJob :=
  match jobs.find? (fun j => decide (j.youtube_url = url)) with
  | some j =>
      if j.status ∈ active_or_completed_statuses then
        (.existingJob j.id, jobs)
      else
        submit_entry_phase jobs entries url tier info newId now
  | none => submit_entry_phase jobs entries url tier info newId now

/-! ## Enrichment stage (`services/transcription_service.py::enhance_with_ai`) -/

/-- Outcome of the generative call: either the client raised, or a response
arrived whose JSON decode yielded `some` payload (or `none` on
`JSONDecodeError`). -/
inductive AICallOutcome
  | raised (e : String)
  | responded (parsed : Option EnhancedPayload)
deriving DecidableEq, Repr

/-- Tier-dependent cap on `qa_pairs`. -/
def qa_count : ProcessingTier → Nat
  | .basic => 5
  | .detailed => 10
  | .bulk => 5

/-- Tier-dependent cap on `key_points`. -/
def key_points_count : ProcessingTier → Nat
  | .basic => 5
  | .detailed => 8
  | .bulk => 5

/-- The fixed dict substituted when `json.loads` fails on the response. -/
def json_parse_fallback : EnhancedPayload :=
  { summary := some "AI analysis completed but structured data parsing failed."
    key_points := some ["Content analysis", "Transcript processing", "AI enhancement"]
    qa_pairs := some [{ question := "What was discussed?"
                        answer := "The content covers various topics from the video transcript." }]
    topics := some ["video", "content", "analysis"] }

/-- The fixed fallback dict returned when the enhancement call raises. -/
def enhancement_exception_fallback (e : String) (tier : ProcessingTier)
    (transcript_word_count : Nat) : EnhancedData :=
  { success := false
    tier := tier
    summary := "AI enhancement temporarily unavailable. Raw transcript available."
    key_points := ["Transcript processed", "Content available", "AI enhancement pending"]
    qa_pairs := [{ question := "What content is available?"
                   answer := "The video transcript has been processed and is available for download." }]
    topics := ["video", "transcript", "processing"]
    word_count := transcript_word_count
    processing_model := "fallback"
    error := some ("AI enhancement failed: " ++ e) }

/-- `enhance_with_ai(transcript_text, tier)`: on a response, read each field
with its default and truncate to the tier caps; on an exception, return the
fallback dict with `success = False`.  The word count of the input text is
passed in as `transcript_word_count`. -/
def enhance_with_ai (outcome : AICallOutcome) (tier : ProcessingTier)
    (transcript_word_count : Nat) : Bool × EnhancedData :=
  match outcome with
  | .raised e => (false, enhancement_exception_fallback e tier transcript_word_count)
  | .responded parsed =>
      let d := parsed.getD json_parse_fallback
      (true,
        { success := true
          tier := tier
          summary := d.summary.getD "Summary not available"
          key_points := (d.key_points.getD []).take (key_points_count tier)
          qa_pairs := (d.qa_pairs.getD []).take (qa_count tier)
          topics := (d.topics.getD []).take 5
          word_count := transcript_word_count
          processing_model := "gpt-3.5-turbo"
          error := none })

/-- `process_video_background`, steps 2–4: whatever `enhance_with_ai`
reported, store its payload on the job and mark the job completed. -/
def complete_job_after_enhancement (j : VideoJob) (ai : Bool × EnhancedData)
    (now : Int) : VideoJob :=
  { j with
    ai_enhanced := some ai.2
    status := .completed
    completed_at := some now }

/-! ## Strategy chain (`services/youtube_service.py`)

`process_whisper_first` first tries audio download + Whisper; when either
sub-step fails it falls back to `process_youtube_transcript`, whose result
it returns verbatim.  The external calls are modelled as outcome
parameters. -/

/-- Typed failures of `transcription_service.get_youtube_transcript`. -/
inductive CaptionFailure
  | noTranscript
  | transcriptsDisabled
  | otherError (msg : String)
deriving DecidableEq, Repr

/-- The `error` string `get_youtube_transcript` puts in its failure dict. -/
def caption_error_message : CaptionFailure → String
  | .noTranscript =>
      "No transcript available for this video. The video may not have captions enabled."
  | .transcriptsDisabled => "Transcripts are disabled for this video."
  | .otherError m => "Failed to get YouTube transcript: " ++ m

/-- Result of a whisper-first strategy run. -/
inductive PWFResult
  | success (method : String) (transcript : TranscriptData)
  | failure (error : String)
deriving DecidableEq, Repr

/-- `process_youtube_transcript` (caption-API strategy): passes the caption
service's transcript through, or its failure dict. -/
def process_youtube_transcript (cap : Except CaptionFailure TranscriptData) : PWFResult :=
  match cap with
  | .ok t => .success "youtube_transcript" t
  | .error f => .failure (caption_error_message f)

/-- `process_whisper_first(url, job_id)`: try `download_audio`, then Whisper
on the downloaded file, then fall back to the caption API.  `dl` carries the
download error string on failure; `whisper` the transcription outcome. -/
def process_whisper_first (dl : Except String Unit)
    (whisper : Except String TranscriptData)
    (cap : Except CaptionFailure TranscriptData) : PWFResult :=
  match dl with
  | .ok _ =>
      match whisper with
      | .ok t => .success "whisper_enhanced" t
      | .error _ => process_youtube_transcript cap
  | .error _ => process_youtube_transcript cap

/-- `process_video_background`, `whisper_primary` branch: on strategy
success store the transcript and stay in the pipeline; on failure set
status `failed`, record the strategy error as `error_message`, and stamp
`completed_at`. -/
def whisper_primary_step (j : VideoJob) (r : PWFResult) (now : Int) : VideoJob :=
  match r with
  | .success m t =>
      { j with
        status := .transcribing
        transcript := some { method := m, full_text := t.full_text, word_count := t.word_count } }
  | .failure e =>
      { j with
        status := .failed
        error_message := some e
        completed_at := some now }

/-! ## Download and Whisper payload validation
(`youtube_service.download_audio` lines 316–340,
`transcription_service.transcribe_audio_with_whisper` lines 221–237) -/

/-- A fetched media payload: its path, its size in bytes, and the first 512
bytes of its content. -/
structure FetchedFile where
  path : String
  size : Nat
  header : String
deriving DecidableEq, Repr

/-- Typed rejections of `download_audio` after the fetch. -/
inductive DownloadCheckError
  | youtubeBlockedHtml
  | tooSmall
  | invalidExtension
deriving DecidableEq, Repr

/-- Typed rejections of `transcribe_audio_with_whisper` before the API call. -/
inductive WhisperCheckError
  | emptyFile
  | payloadTooLarge
  | htmlNotAudio
deriving DecidableEq, Repr

/-- The extension whitelist of `download_audio`. -/
def valid_audio_extensions : List String :=
  [".m4a", ".webm", ".mp3", ".mp4", ".wav", ".ogg"]

/-- `download_audio`'s post-fetch validation: reject `.mhtml`/`.html`
payloads (YouTube blocking signature), files under 1 KB, and unknown
extensions. -/
def download_audio_validate (f : FetchedFile) : Option DownloadCheckError :=
  if strEndsWith f.path ".mhtml" || strEndsWith f.path ".html" then
    some .youtubeBlockedHtml
  else if f.size < 1024 then
    some .tooSmall
  else if !(valid_audio_extensions.any (fun ext => strEndsWith f.path.toLower ext)) then
    some .invalidExtension
  else
    none

/-- `transcribe_audio_with_whisper`'s validation before any transcription:
reject empty files, payloads over 25 MB, and files whose header carries an
HTML marker. -/
def whisper_precheck (f : FetchedFile) : Option WhisperCheckError :=
  if f.size = 0 then
    some .emptyFile
  else if f.size > 25 * 1024 * 1024 then
    some .payloadTooLarge
  else if strContainsSub f.header.toLower "<html"
      || strContainsSub f.header.toLower "<!doctype" then
    some .htmlNotAudio
  else
    none

/-- Outcome of the composed Download+Transcribe strategy on one fetched
payload. -/
inductive StrategyOutcome
  | rejectedAtDownload (e : DownloadCheckError)
  | rejectedBeforeSTT (e : WhisperCheckError)
  | sttResult (r : Except String TranscriptData)

/-- The Download+Transcribe strategy: `download_audio`'s validation, then
the Whisper pre-checks, and only then the speech-to-text call (`stt`). -/
def download_then_transcribe (f : FetchedFile)
    (stt : Except String TranscriptData) : StrategyOutcome :=
  match download_audio_validate f with
  | some e => .rejectedAtDownload e
  | none =>
      match whisper_precheck f with
      | some e => .rejectedBeforeSTT e
      | none => .sttResult stt

/-- Did the strategy refuse the payload before reaching speech-to-text? -/
def rejected_before_stt : StrategyOutcome → Bool
  | .rejectedAtDownload _ => true
  | .rejectedBeforeSTT _ => true
  | .sttResult _ => false

/-- A payload that is HTML disguised as media: an `.html`/`.mhtml` file, or
a file whose header carries an HTML marker. -/
def html_disguised (f : FetchedFile) : Bool :=
  strEndsWith f.path ".mhtml" || strEndsWith f.path ".html"
    || strContainsSub f.header.toLower "<html"
    || strContainsSub f.header.toLower "<!doctype"

/-! ## Concrete fixtures -/

/-- A failed job holding partial results from its aborted attempt;
`retry_count` holds a stored string, as the column does. -/
def sampleFailedJob : VideoJob :=
  { id := "job-1"
    youtube_url := "https://www.youtube.com/watch?v=abcdefghijk"
    status := .failed
    tier := .basic
    retry_count := some "2"
    error_message := some "Whisper transcription failed: request timed out"
    video_metadata := none
    transcript := some { method := "whisper_api", full_text := "hello world", word_count := 2 }
    ai_enhanced := some (enhancement_exception_fallback "request timed out" .basic 2)
    created_at := 0
    completed_at := some 200 }

/-- A pending job for the same source URL as `sampleFailedJob`. -/
def samplePendingJob : VideoJob :=
  { sampleFailedJob with
    id := "job-2"
    status := .pending
    error_message := none
    transcript := none
    ai_enhanced := none
    completed_at := none }

/-! ## Claim theorems -/

/-- C1: the claim says `retry(jobId)` on a `Failed` job with partial
result fields set clears `errorMessage` and all result-payload fields,
sets `status = Pending` and increments `retryCount` by exactly 1.  The
endpoint can do none of this: on a stored retry count (the column default
is the string `"0"`), `(job.retry_count or 0) + 1` raises `TypeError`
before any write, so the call answers 500 with the job untouched.  In the
only corner that passes the increment (`retry_count` NULL), the
stale-data guard compares the status *after* the pending reset and never
fires, so the committed reset keeps the partial transcript and
enrichment, and the call still answers 500 on importing the missing
`process_video_job_background`.  The code's own comment ("Clear any
partial data to ensure clean retry") documents the claimed intent. -/
theorem retry_endpoint_raises_and_keeps_stale_fields :
    retry_job sampleFailedJob
      = (sampleFailedJob,
         .raised (.typeError "can only concatenate str (not \"int\") to str")) ∧
    retry_job { sampleFailedJob with retry_count := none }
      = ({ sampleFailedJob with
           retry_count := some "1"
           status := .pending
           error_message := none },
         .raised (.importError "process_video_job_background")) ∧
    sampleFailedJob.transcript ≠ none ∧
    sampleFailedJob.ai_enhanced ≠ none := by
  refine ⟨rfl, rfl, ?_, ?_⟩ <;> simp [sampleFailedJob]

/-- C6: the claim says the stuck detector is a pure, non-mutating
predicate of `(status, updatedAt, now)` flagging exactly the Downloading
jobs stale for more than 30 minutes and the Transcribing/Enhancing jobs
stale for more than 15; the filter clause written in the source denotes
exactly that predicate, with the claimed strict 29/31-minute boundary
behaviour.  But the `VideoJob` model declares no `updated_at` column, so
building the query raises `AttributeError` and the endpoint flags no job
at all — in particular not a Downloading job 31 minutes stale. -/
theorem stuck_detection_raises_attribute_error :
    ∀ (jobs : List VideoJob) (now updated_at : Int) (s : ProcessingStatus),
      get_stuck_jobs jobs now = .error (.attributeError "updated_at") ∧
      "updated_at" ∉ videojob_column_names ∧
      (stuck_filter_clause s updated_at now = true ↔
        (s = .downloading ∧ now - updated_at > 30 * 60) ∨
        ((s = .transcribing ∨ s = .enhancing) ∧ now - updated_at > 15 * 60)) ∧
      stuck_filter_clause .downloading (now - 29 * 60) now = false ∧
      stuck_filter_clause .downloading (now - 31 * 60) now = true := by
  intro jobs now u s
  refine ⟨rfl, by decide, ?_, ?_, ?_⟩
  · cases s <;> simp [stuck_filter_clause] <;> omega
  · simp [stuck_filter_clause]
  · simp [stuck_filter_clause]

/-- C10: the signal score published with every catalog entry is an integer
between 1 and 100 inclusive, for every combination of (possibly missing)
enrichment and transcript inputs. -/
theorem signal_score_in_range :
    ∀ (e : Option EnhancedData) (t : Option TranscriptData) (job : VideoJob) (now : Int),
      (1 ≤ infer_signal_score e t ∧ infer_signal_score e t ≤ 100) ∧
      (1 ≤ (directory_payload_from_job job now).signal_score ∧
        (directory_payload_from_job job now).signal_score ≤ 100) := by
  have h : ∀ (e : Option EnhancedData) (t : Option TranscriptData),
      1 ≤ infer_signal_score e t ∧ infer_signal_score e t ≤ 100 := by
    intro e t
    constructor
    · exact le_max_left 1 _
    · exact max_le (by norm_num) (min_le_left _ _)
  intro e t job now
  exact ⟨h e t, h job.ai_enhanced job.transcript⟩

/-- C8: whatever the generative service returns, the enrichment result has
at most `N` key points, `M` Q&A pairs and 5 topics, with
`(N, M) = (5, 5)` for basic, `(8, 10)` for detailed and `(5, 5)` for bulk. -/
theorem enhance_respects_tier_caps :
    ∀ (outcome : AICallOutcome) (tier : ProcessingTier) (wc : Nat),
      ((enhance_with_ai outcome tier wc).2.key_points.length ≤ key_points_count tier ∧
       (enhance_with_ai outcome tier wc).2.qa_pairs.length ≤ qa_count tier ∧
       (enhance_with_ai outcome tier wc).2.topics.length ≤ 5) ∧
      (key_points_count .basic = 5 ∧ qa_count .basic = 5) ∧
      (key_points_count .detailed = 8 ∧ qa_count .detailed = 10) ∧
      (key_points_count .bulk = 5 ∧ qa_count .bulk = 5) := by
  intro outcome tier wc
  refine ⟨?_, ⟨rfl, rfl⟩, ⟨rfl, rfl⟩, ⟨rfl, rfl⟩⟩
  cases outcome with
  | raised e =>
      cases tier <;>
        simp [enhance_with_ai, enhancement_exception_fallback, key_points_count, qa_count]
  | responded parsed =>
      refine ⟨?_, ?_, ?_⟩ <;> simp [enhance_with_ai]

/-- C4: when the enrichment response is unparsable, or the enrichment call
raises, the fixed fallback payload is stored and the job still completes:
enrichment failure is never fatal to the job. -/
theorem enrichment_failure_nonfatal :
    ∀ (tier : ProcessingTier) (wc : Nat) (e : String) (j : VideoJob) (now : Int),
      (complete_job_after_enhancement j (enhance_with_ai (.responded none) tier wc) now).status
          = .completed ∧
      (complete_job_after_enhancement j (enhance_with_ai (.raised e) tier wc) now).status
          = .completed ∧
      (complete_job_after_enhancement j (enhance_with_ai (.responded none) tier wc) now).ai_enhanced
          = some (enhance_with_ai (.responded none) tier wc).2 ∧
      (complete_job_after_enhancement j (enhance_with_ai (.raised e) tier wc) now).ai_enhanced
          = some (enhance_with_ai (.raised e) tier wc).2 ∧
      (enhance_with_ai (.responded none) tier wc).2.summary
          = "AI analysis completed but structured data parsing failed." ∧
      (enhance_with_ai (.responded none) tier wc).2.key_points
          = ["Content analysis", "Transcript processing", "AI enhancement"] ∧
      (enhance_with_ai (.responded none) tier wc).2.topics
          = ["video", "content", "analysis"] ∧
      (enhance_with_ai (.raised e) tier wc).2.summary
          = "AI enhancement temporarily unavailable. Raw transcript available." ∧
      (enhance_with_ai (.raised e) tier wc).2.key_points
          = ["Transcript processed", "Content available", "AI enhancement pending"] ∧
      (enhance_with_ai (.raised e) tier wc).2.topics
          = ["video", "transcript", "processing"] := by
  intro tier wc e j now
  cases tier <;>
    exact ⟨rfl, rfl, rfl, rfl, rfl, rfl, rfl, rfl, rfl, rfl⟩

/-- The download failure message of `download_audio` on an HTTP 403. -/
def dl_blocked_message : String :=
  "YouTube blocked the download (403 Forbidden). Enhanced anti-detection failed for this video."

/-- C5 counterexample: with the download strategy failing on a 403 block
and the caption API reporting no transcript, the strategy result carries
only the caption-API message; the download error (in particular the string
"403") appears nowhere in it, so the claimed concatenation of the last
error of *every* attempted strategy does not happen. -/
theorem exhausted_strategies_error_drops_download_error :
    process_whisper_first (.error dl_blocked_message)
        (.error "Whisper transcription failed: no audio") (.error .noTranscript)
      = .failure (caption_error_message .noTranscript) ∧
    (whisper_primary_step samplePendingJob
        (process_whisper_first (.error dl_blocked_message)
          (.error "Whisper transcription failed: no audio") (.error .noTranscript))
        999).error_message
      = some (caption_error_message .noTranscript) ∧
    strContainsSub (caption_error_message .noTranscript) dl_blocked_message = false ∧
    strContainsSub (caption_error_message .noTranscript) "403" = false := by
  exact ⟨rfl, rfl, rfl, rfl⟩

/-- C5 (amended): when every strategy in the resolved list fails, the job's
terminal status is `Failed` and its `errorMessage` is non-empty and carries
the error of the *last* attempted strategy (the caption API's failure
message); the earlier download/Whisper error is not retained. -/
theorem exhausted_strategies_fail_with_last_error :
    ∀ (dlErr whErr : String) (wh : Except String TranscriptData)
      (f : CaptionFailure) (j : VideoJob) (now : Int),
      process_whisper_first (.error dlErr) wh (.error f)
          = .failure (caption_error_message f) ∧
      process_whisper_first (.ok ()) (.error whErr) (.error f)
          = .failure (caption_error_message f) ∧
      (whisper_primary_step j (.failure (caption_error_message f)) now).status = .failed ∧
      (whisper_primary_step j (.failure (caption_error_message f)) now).error_message
          = some (caption_error_message f) ∧
      caption_error_message f ≠ "" := by
  intro dlErr whErr wh f j now
  refine ⟨rfl, rfl, rfl, rfl, ?_⟩
  cases f with
  | noTranscript => decide
  | transcriptsDisabled => decide
  | otherError m =>
      intro h
      have h2 := congrArg String.length h
      rw [caption_error_message, String.length_append] at h2
      have h3 : ("Failed to get YouTube transcript: ").length = 34 := rfl
      have h4 : ("" : String).length = 0 := rfl
      omega

/-- When both validation layers pass, the payload is neither over 25 MB
nor HTML disguised as media. -/
theorem checks_pass_constraints (f : FetchedFile)
    (hdv : download_audio_validate f = none) (hwp : whisper_precheck f = none) :
    ¬(f.size > 25 * 1024 * 1024 ∨ html_disguised f = true) := by
  unfold download_audio_validate at hdv
  unfold whisper_precheck at hwp
  split_ifs at hdv with h1 h2 h3
  split_ifs at hwp with h4 h5 h6
  rintro (hsize | hdis)
  · exact h5 hsize
  · unfold html_disguised at hdis
    simp only [Bool.or_eq_true] at hdis h1 h6
    rcases hdis with ((ha | hb) | hc) | hd
    · exact h1 (Or.inl ha)
    · exact h1 (Or.inr hb)
    · exact h6 (Or.inl hc)
    · exact h6 (Or.inr hd)

/-- C9: the Download+Transcribe strategy rejects, with a typed failure and
without reaching the speech-to-text call, every payload over 25 MB and
every payload that is HTML disguised as media (`.html`/`.mhtml` name, or an
HTML marker in the header); the outcome is independent of the
speech-to-text oracle. -/
theorem oversize_or_html_rejected_before_stt :
    ∀ (f : FetchedFile) (stt stt' : Except String TranscriptData),
      (f.size > 25 * 1024 * 1024 ∨ html_disguised f = true) →
      rejected_before_stt (download_then_transcribe f stt) = true ∧
      download_then_transcribe f stt = download_then_transcribe f stt' := by
  intro f stt stt' h
  cases hdv : download_audio_validate f with
  | some e =>
      refine ⟨?_, ?_⟩ <;> simp [download_then_transcribe, hdv, rejected_before_stt]
  | none =>
      cases hwp : whisper_precheck f with
      | some e =>
          refine ⟨?_, ?_⟩ <;> simp [download_then_transcribe, hdv, hwp, rejected_before_stt]
      | none => exact absurd h (checks_pass_constraints f hdv hwp)

/-- An HTML payload saved under an `.html` name, as YouTube's anti-bot
response produces. -/
def sampleHtmlFile : FetchedFile :=
  { path := "/tmp/job_job-1/audio.html"
    size := 4096
    header := "<!DOCTYPE html><html><head><title>Sorry</title>" }

/-- Witness for C9 at a concrete HTML-disguised payload. -/
theorem oversize_or_html_rejected_before_stt_witness :
    (sampleHtmlFile.size > 25 * 1024 * 1024 ∨ html_disguised sampleHtmlFile = true) ∧
    rejected_before_stt
        (download_then_transcribe sampleHtmlFile (.error "not called")) = true ∧
    download_then_transcribe sampleHtmlFile (.error "not called")
      = download_then_transcribe sampleHtmlFile
          (.ok { method := "whisper_api", full_text := "t", word_count := 1 }) := by
  have h : sampleHtmlFile.size > 25 * 1024 * 1024 ∨ html_disguised sampleHtmlFile = true :=
    Or.inr rfl
  have hmain := oversize_or_html_rejected_before_stt sampleHtmlFile
    (.error "not called")
    (.ok { method := "whisper_api", full_text := "t", word_count := 1 }) h
  exact ⟨h, hmain.1, hmain.2⟩

/-- Every per-item result of the bulk loop reports failure: the increment
raises on every stored string, and the NULL/`""` corner fails on the
missing import. -/
theorem bulk_retry_item_fails (j : VideoJob) :
    (bulk_retry_item j).2.success = false := by
  have himp : import_from_api_process "process_video_job_background"
      = .error (.importError "process_video_job_background") := rfl
  unfold bulk_retry_item
  cases j.retry_count with
  | none => simp [py_increment_retry_count, himp]
  | some s =>
      by_cases hs : s = "" <;> simp [py_increment_retry_count, hs, himp]

/-- The loop emits one result per selected job. -/
theorem bulk_retry_loop_length :
    ∀ l : List VideoJob, (bulk_retry_loop l).2.length = l.length := by
  intro l
  induction l with
  | nil => rfl
  | cons j rest ih => simp [bulk_retry_loop, ih]

/-- Membership form of `bulk_retry_item_fails` over the whole loop. -/
theorem bulk_retry_loop_all_fail :
    ∀ (l : List VideoJob) (r : RetryResult),
      r ∈ (bulk_retry_loop l).2 → r.success = false := by
  intro l
  induction l with
  | nil => intro r hr; simp [bulk_retry_loop] at hr
  | cons j rest ih =>
      intro r hr
      simp only [bulk_retry_loop] at hr
      rcases List.mem_cons.mp hr with h | h
      · rw [h]; exact bulk_retry_item_fails j
      · exact ih r h

/-- C7: the claim says bulk retry selects exactly the failed jobs with
`retryCount < maxRetries` and that one job's re-queue failure is reported
per item without preventing the other selected jobs' retries.  In the
program no retry ever succeeds: every iteration raises (`TypeError` on
the String-column increment; `ImportError` on the missing background task
in the NULL/`""` corner), each is reported as that job's per-item failure,
and `successful_retries` is 0 on every table.  The eligibility comparison
is moreover a lexicographic TEXT comparison, not the claimed numeric one:
a job with 10 stored retries is selected at cap 3, and one with 999 is
rejected at cap 1000000. -/
theorem bulk_retry_never_requeues_and_compares_text :
    ∀ (db : List VideoJob) (max_retries : Nat),
      (retry_all_failed_jobs db max_retries).1.successful_retries = 0 ∧
      (∀ r ∈ (retry_all_failed_jobs db max_retries).1.details, r.success = false) ∧
      (retry_all_failed_jobs db max_retries).1.details.length
        = (db.filter (bulk_retry_eligible max_retries)).length ∧
      bulk_retry_eligible 3 { sampleFailedJob with retry_count := some "10" } = true ∧
      ¬ (10 < 3) ∧
      bulk_retry_eligible 1000000 { sampleFailedJob with retry_count := some "999" } = false ∧
      999 < 1000000 := by
  intro db max_retries
  have hall : ∀ r ∈ (bulk_retry_loop
      (db.filter (bulk_retry_eligible max_retries))).2, r.success = false :=
    bulk_retry_loop_all_fail _
  refine ⟨?_, fun r hr => hall r hr, bulk_retry_loop_length _,
    by decide, by decide, by decide, by decide⟩
  show ((bulk_retry_loop (db.filter (bulk_retry_eligible max_retries))).2.filter
      (fun r => r.success)).length = 0
  rw [List.filter_eq_nil_iff.mpr (fun r hr => by simp [hall r hr])]
  rfl

/-- Reference formulation of the amended submission contract, written from
the amended claim's words: deduplication consults only the *first* stored
job for the URL — its id is returned exactly when its status is not
`Failed`; otherwise a matching catalog entry short-circuits the submission,
and a fresh job is created only when the first prior job (if any) is
`Failed` and no catalog entry matches. -/
def submit_dedup_spec (jobs : List VideoJob) (entries : List DirectoryEntryRec)
    (url : String) (tier : ProcessingTier) (info : Option VideoMeta)
    (newId : String) (now : Int) : SubmitOutcome × List VideoJob :=
  let firstJob := jobs.find? (fun j => decide (j.youtube_url = url))
  let entryHit := entries.find? (fun e =>
    decide (e.video_url = some url) || decide (e.source_url = url))
  let fallThrough :=
    match entryHit with
    | some e => (SubmitOutcome.existingEntry e.id, jobs)
    | none =>
        match info with
        | none => (SubmitOutcome.rejected, jobs)
        | some i => (SubmitOutcome.created newId,
            jobs ++ [new_job_record newId url tier i now])
  match firstJob with
  | some j => if j.status = .failed then fallThrough else (.existingJob j.id, jobs)
  | none => fallThrough

/-- C2 (amended): the submission handler implements exactly the first-job
deduplication contract of `submit_dedup_spec` — it returns the first
stored job's id iff that job is non-`Failed`, short-circuits on a catalog
entry otherwise, and creates a fresh job only when the first prior job (if
any) is `Failed` and no entry matches. -/
theorem submission_matches_first_job_dedup_spec :
    ∀ (jobs : List VideoJob) (entries : List DirectoryEntryRec) (url : String)
      (tier : ProcessingTier) (info : Option VideoMeta) (newId : String) (now : Int),
      submit_video_for_processing jobs entries url tier info newId now
        = submit_dedup_spec jobs entries url tier info newId now := by
  intro jobs entries url tier info newId now
  unfold submit_video_for_processing submit_dedup_spec submit_entry_phase
  cases jobs.find? (fun j => decide (j.youtube_url = url)) with
  | none => rfl
  | some j =>
      cases hs : j.status <;>
        simp [active_or_completed_statuses, hs]

/-- C2 counterexample: a table holding a `Failed` job and then a `Pending`
job for the same URL, and no catalog entry.  A job for the URL is pending,
yet the submission neither returns an existing job id nor leaves the table
unchanged: it creates a third job, because only the first stored job is
consulted. -/
theorem submission_creates_duplicate_despite_pending_job :
    samplePendingJob.youtube_url = sampleFailedJob.youtube_url ∧
    samplePendingJob.status = .pending ∧
    (submit_video_for_processing [sampleFailedJob, samplePendingJob] []
        sampleFailedJob.youtube_url .basic (some { title := some "T", uploader := none })
        "job-3" 500).1 = .created "job-3" ∧
    (submit_video_for_processing [sampleFailedJob, samplePendingJob] []
        sampleFailedJob.youtube_url .basic (some { title := some "T", uploader := none })
        "job-3" 500).2.length = 3 := by
  exact ⟨rfl, rfl, rfl, rfl⟩

/-- `update_first` passes over a prefix on which the predicate is false. -/
theorem update_first_append_of_all_false {α : Type} (p : α → Bool) (f : α → α)
    (l1 l2 : List α) (h : ∀ x ∈ l1, p x = false) :
    update_first p f (l1 ++ l2) = l1 ++ update_first p f l2 := by
  induction l1 with
  | nil => rfl
  | cons x xs ih =>
      have hx : p x = false := h x (List.mem_cons_self x xs)
      have hxs : ∀ y ∈ xs, p y = false := fun y hy => h y (List.mem_cons_of_mem x hy)
      simp [update_first, hx, ih hxs]

/-- `find?` skips a prefix on which the predicate is false. -/
theorem find?_append_of_all_false {α : Type} (p : α → Bool) (l1 l2 : List α)
    (h : ∀ x ∈ l1, p x = false) : (l1 ++ l2).find? p = l2.find? p := by
  induction l1 with
  | nil => rfl
  | cons x xs ih =>
      have hx : p x = false := h x (List.mem_cons_self x xs)
      have hxs : ∀ y ∈ xs, p y = false := fun y hy => h y (List.mem_cons_of_mem x hy)
      rw [List.cons_append, List.find?_cons_of_neg _ (by simp [hx]), ih hxs]

/-- An upsert against a table with no row for the job's URL appends a fresh
entry. -/
theorem upsert_inserts_when_no_match (entries : List DirectoryEntryRec)
    (job : VideoJob) (now : Int) (newId : String)
    (h : entries.find? (entry_has_video_url job.youtube_url) = none) :
    upsert_directory_entry_from_job entries job now newId
      = entries ++ [new_entry_from_payload newId (directory_payload_from_job job now)] := by
  unfold upsert_directory_entry_from_job
  rw [h]

/-- An upsert against a table whose only row for the job's URL is the last
element rewrites that row in place. -/
theorem upsert_updates_when_match_last (base : List DirectoryEntryRec)
    (e1 : DirectoryEntryRec) (job : VideoJob) (now : Int) (newId : String)
    (hall : ∀ x ∈ base, entry_has_video_url job.youtube_url x = false)
    (he1 : entry_has_video_url job.youtube_url e1 = true) :
    upsert_directory_entry_from_job (base ++ [e1]) job now newId
      = base ++ [apply_payload (directory_payload_from_job job now) e1] := by
  unfold upsert_directory_entry_from_job
  rw [find?_append_of_all_false _ _ _ hall, List.find?_cons_of_pos _ he1]
  show update_first (entry_has_video_url job.youtube_url)
      (apply_payload (directory_payload_from_job job now)) (base ++ [e1])
    = base ++ [apply_payload (directory_payload_from_job job now) e1]
  rw [update_first_append_of_all_false _ _ _ _ hall]
  simp [update_first, he1]

/-- C3: processing the same source URL to completion twice, against any
table holding no entry for that URL, produces exactly one catalog entry for
the URL; its `created_at` is the first publish's timestamp and every other
field (all the derived fields and `updated_at`) equals the value computed
at the second publish — last writer wins, no duplicate rows. -/
theorem publish_upsert_convergence :
    ∀ (entries : List DirectoryEntryRec) (j1 j2 : VideoJob) (url : String)
      (t1 t2 : Int) (id1 id2 : String),
      upsert_directory_entry_from_job
          (upsert_directory_entry_from_job
            (entries.filter (fun e => !(entry_has_video_url url e)))
            { j1 with youtube_url := url } t1 id1)
          { j2 with youtube_url := url } t2 id2
        = entries.filter (fun e => !(entry_has_video_url url e))
            ++ [{ new_entry_from_payload id1
                    (directory_payload_from_job { j2 with youtube_url := url } t2)
                  with created_at := t1 }] ∧
      ((upsert_directory_entry_from_job
          (upsert_directory_entry_from_job
            (entries.filter (fun e => !(entry_has_video_url url e)))
            { j1 with youtube_url := url } t1 id1)
          { j2 with youtube_url := url } t2 id2).filter
          (entry_has_video_url url)).length = 1 := by
  intro entries j1 j2 url t1 t2 id1 id2
  have hall : ∀ e ∈ entries.filter (fun e => !(entry_has_video_url url e)),
      entry_has_video_url url e = false := by
    intro e he
    have := (List.mem_filter.mp he).2
    simpa using this
  have hnone : (entries.filter (fun e => !(entry_has_video_url url e))).find?
      (entry_has_video_url url) = none := by
    rw [List.find?_eq_none]
    intro x hx
    simp [hall x hx]
  have h1 : upsert_directory_entry_from_job
      (entries.filter (fun e => !(entry_has_video_url url e)))
      { j1 with youtube_url := url } t1 id1
      = entries.filter (fun e => !(entry_has_video_url url e))
        ++ [new_entry_from_payload id1
              (directory_payload_from_job { j1 with youtube_url := url } t1)] :=
    upsert_inserts_when_no_match _ _ _ _ hnone
  have he1 : entry_has_video_url url
      (new_entry_from_payload id1
        (directory_payload_from_job { j1 with youtube_url := url } t1)) = true := by
    simp [entry_has_video_url, new_entry_from_payload, directory_payload_from_job]
  have h2 := upsert_updates_when_match_last
    (entries.filter (fun e => !(entry_has_video_url url e)))
    (new_entry_from_payload id1
      (directory_payload_from_job { j1 with youtube_url := url } t1))
    { j2 with youtube_url := url } t2 id2 hall he1
  have happ : entry_has_video_url url
      (apply_payload (directory_payload_from_job { j2 with youtube_url := url } t2)
        (new_entry_from_payload id1
          (directory_payload_from_job { j1 with youtube_url := url } t1))) = true := by
    simp [entry_has_video_url, apply_payload, new_entry_from_payload,
      directory_payload_from_job]
  have hbase : (entries.filter (fun e => !(entry_has_video_url url e))).filter
      (entry_has_video_url url) = [] :=
    List.filter_eq_nil_iff.mpr (fun a ha => by simp [hall a ha])
  constructor
  · rw [h1, h2]
    rfl
  · rw [h1, h2, List.filter_append, hbase]
    simp [List.filter, happ]

end VideoMind
